import Mathlib

/-!
Shallow embedding of the credential-request module of the
learner-credential-wallet repository
(`src/app/lib/credentialRequest.ts`) and of the share screen's
`renderItem` (`src/app/screens/ShareHomeScreen/ShareHomeScreen.tsx`),
together with theorems settling the specification claims about them.

JavaScript runtime values that the untyped classifier functions inspect
are modelled by `JsonValue`; JavaScript truthiness by `truthy`; the
platform `JSON.parse` builtin is a parameter (`jsonParse`).  Throwing
functions are embedded with `Except`.  The external collaborator modules
(`issuerAuth`, `present`, `parseResponse`, `verifiableObject`) are not
part of the embedded sources; they appear as capability fields of `Env`,
and all theorems quantify over them.
-/

/-- A JavaScript/JSON runtime value, as far as the classifier functions
inspect it.  Numbers are modelled as integers; none of the embedded code
does numeric arithmetic. -/
inductive JsonValue where
  | null : JsonValue
  | bool : Bool → JsonValue
  | num : Int → JsonValue
  | str : String → JsonValue
  | arr : List JsonValue → JsonValue
  | obj : List (String × JsonValue) → JsonValue

/-- JavaScript truthiness (`!!v`): `null`, `false`, `0` and the empty
string are falsy; arrays and objects (even empty ones) are truthy. -/
def truthy : JsonValue → Bool
  | .null => false
  | .bool b => b
  | .num n => n != 0
  | .str s => s != ""
  | .arr _ => true
  | .obj _ => true

/-- Property access `v[key]` on a JavaScript value: defined only when
`v` is an object that carries the key (first binding wins, as in a JS
object literal); every other access yields `undefined`, modelled as
`none`. -/
def jsField : JsonValue → String → Option JsonValue
  | .obj fields, key => (fields.find? (fun f => f.1 == key)).map (fun f => f.2)
  | _, _ => none

/-- Truthiness of a possibly-undefined value (`!!x` where `x` may be
`undefined`). -/
def truthyOpt : Option JsonValue → Bool
  | some v => truthy v
  | none => false

/-- An inbound parameter bag (`Record<string, unknown>`): a finite list
of key/value bindings. -/
abbrev ParamBag := List (String × JsonValue)

/-- Key lookup in a parameter bag (first binding wins). -/
def paramLookup (params : ParamBag) (key : String) : Option JsonValue :=
  (params.find? (fun f => f.1 == key)).map (fun f => f.2)

/-- `isCredentialRequestParams` from `credentialRequest.ts`: destructures
`issuer` and `vc_request_url` out of `params || {}` and reports whether
both are defined.  An `undefined` bag (`none`) falls back to the empty
object. -/
def isCredentialRequestParams (params : Option ParamBag) : Bool :=
  let ps := params.getD []
  (paramLookup ps "issuer").isSome && (paramLookup ps "vc_request_url").isSome

/-- Errors thrown by the CHAPI classification path:
`malformedRequest` is the `Error` thrown by `getChapiCredentialRequest`
when the `request` field is absent or falsy, and `decodeError` stands
for the `SyntaxError` that `JSON.parse` throws on undecodable input. -/
inductive ChapiError where
  | malformedRequest : ChapiError
  | decodeError : ChapiError
deriving Repr, DecidableEq

/-- `getChapiCredentialRequest` from `credentialRequest.ts`: reads the
`request` field of the bag, throws the malformed-request `Error` when it
is absent or falsy (`!requestString`), and otherwise hands it to
`JSON.parse` (the parameter `jsonParse`, covering the platform builtin
together with its string coercion of non-string arguments); a parse
failure propagates as `decodeError`. -/
def getChapiCredentialRequest (jsonParse : JsonValue → Except Unit JsonValue)
    (params : ParamBag) : Except ChapiError JsonValue :=
  match paramLookup params "request" with
  | none => .error .malformedRequest
  | some requestString =>
    if truthy requestString then
      match jsonParse requestString with
      | .error _ => .error .decodeError
      | .ok request => .ok request
    else
      .error .malformedRequest

/-- `isChapiCredentialRequest` from `credentialRequest.ts`: destructures
`credentialRequestOrigin` and `protocols` out of `request || {}`;
returns `false` unless both are defined and at least one of the keys
`OID4VCI`, `OID4VP`, `vcapi` is truthy in `protocols`.  The argument is
`Option` because the TypeScript parameter has type `any` and may be
`undefined`. -/
def isChapiCredentialRequest (request : Option JsonValue) : Bool :=
  let r := match request with
    | none => JsonValue.obj []
    | some v => if truthy v then v else JsonValue.obj []
  match jsField r "credentialRequestOrigin", jsField r "protocols" with
  | some _, some protocols =>
    ["OID4VCI", "OID4VP", "vcapi"].any (fun field => truthyOpt (jsField protocols field))
  | _, _ => false

/-- `isChapiCredentialRequestParams` from `credentialRequest.ts`: calls
`getChapiCredentialRequest` (whose exceptions propagate to the caller)
and applies `isChapiCredentialRequest` to the decoded value. -/
def isChapiCredentialRequestParams (jsonParse : JsonValue → Except Unit JsonValue)
    (params : ParamBag) : Except ChapiError Bool :=
  match getChapiCredentialRequest jsonParse params with
  | .error e => .error e
  | .ok request => .ok (isChapiCredentialRequest (some request))

/-- OAuth/OIDC configuration for an issuer, as handed to the
authorization capability.  Its contents are opaque to the engine. -/
structure OidcConfig where
  clientId : String
deriving Repr, DecidableEq

/-- The wallet holder's DID record, borrowed read-only for presentation
construction. -/
structure DidRecord where
  did : String
deriving Repr, DecidableEq

/-- The signed verifiable-presentation payload produced by
`createVerifiablePresentation`; opaque to the engine, which only
serializes it into the submission body. -/
structure PresentationPayload where
  payload : String
deriving Repr, DecidableEq

/-- A decoded issuer response (`VerifiableObject` from
`verifiableObject.ts`): a VC or VP, opaque to the engine. -/
structure VerifiableObject where
  raw : String
deriving Repr, DecidableEq

/-- Modelled from the spec: the issuer field of a `Credential`
(`src/app/types/credential`, not among the embedded sources) is either a
bare identifier string or an object with an `id` and an optional
`name`. -/
inductive IssuerField where
  | strId : String → IssuerField
  | ref : String → Option String → IssuerField
deriving Repr, DecidableEq

/-- Modelled from the spec: the `hasCredential` object inside a
credential subject, carrying an optional display `name`. -/
structure HasCredentialField where
  name : Option String
deriving Repr, DecidableEq

/-- Modelled from the spec: the credential subject, with an optional
`hasCredential` object. -/
structure CredentialSubject where
  hasCredential : Option HasCredentialField
deriving Repr, DecidableEq

/-- Modelled from the spec: a verifiable credential as the share screen
and the engine's return type use it (`id` unique within a response,
polymorphic `issuer`). -/
structure Credential where
  id : String
  credentialSubject : CredentialSubject
  issuer : IssuerField
deriving Repr, DecidableEq

/-- The HTTP request assembled by `requestCredential` before `fetch`.
The body holds the presentation payload that `JSON.stringify` would
serialize. -/
structure HttpRequest where
  method : String
  headers : List (String × String)
  body : PresentationPayload
deriving Repr, DecidableEq

/-- An HTTP response as `fetch` resolves it. -/
structure HttpResponse where
  status : Nat
  body : String
deriving Repr, DecidableEq

/-- `Response.ok` of the fetch API: status in the 2xx range. -/
def HttpResponse.ok (r : HttpResponse) : Bool :=
  200 ≤ r.status && r.status ≤ 299

/-- Header lookup in an assembled header list. -/
def headerLookup (headers : List (String × String)) (key : String) : Option String :=
  (headers.find? (fun h => h.1 == key)).map (fun h => h.2)

/-- Modelled from the spec: the external collaborators of
`requestCredential`, whose modules (`issuerAuth.ts`, `present.ts`,
`parseResponse.ts`, `verifiableObject.ts`, the `react-native-app-auth`
`authorize`, and the platform `fetch`) are not among the embedded
sources.  Each is a capability field, per the spec's interface
contracts; theorems quantify over an arbitrary `Env`.  `authorize`
resolves to an object whose `accessToken` field may be absent, or
rejects; `parseResponseBody` may fail; `verifyVerifiableObject` returns
a boolean; `extractCredentialsFrom` returns a credential list or
`null`. -/
structure Env where
  isInRegistry : String → Bool
  entryFor : String → OidcConfig
  authorize : OidcConfig → Except Unit (Option String)
  present : DidRecord → Option String → PresentationPayload
  fetch : String → HttpRequest → HttpResponse
  parseResponseBody : HttpResponse → Except Unit VerifiableObject
  verifyVerifiableObject : VerifiableObject → Bool
  extractCredentialsFrom : VerifiableObject → Option (List Credential)

/-- The typed parameter record `CredentialRequestParams` of
`credentialRequest.ts`. -/
structure CredentialRequestParams where
  auth_type : Option String := none
  issuer : String
  vc_request_url : String
  challenge : Option String := none
deriving Repr, DecidableEq

/-- The distinct failures `requestCredential` can throw, one per `throw`
site of the source. -/
inductive ReqError where
  | issuerNotRegistered : String → ReqError
  | authorizationFailed : ReqError
  | unsupportedAuthType : String → ReqError
  | issuerResponse : ReqError
  | responseParse : ReqError
  | noCredentials : ReqError
deriving Repr, DecidableEq

/-- Observable side effects of one `requestCredential` run: how often the
authorization capability ran, the arguments of each presentation build,
each HTTP submission with its full request, how often the response
decoder, the verifier and the extractor ran, and whether the
unverified-response advisory warning was logged. -/
structure Trace where
  authorizeCalls : Nat := 0
  presentCalls : List (DidRecord × Option String) := []
  submissions : List (String × HttpRequest) := []
  decodeCalls : Nat := 0
  verifyCalls : Nat := 0
  extractCalls : Nat := 0
  warnedUnverified : Bool := false
deriving Repr, DecidableEq

/-- The `switch (auth_type)` prologue of `requestCredential`: resolves
`auth_type` with its `'code'` default, guards the registry for the
`code` flow and invokes the authorization capability, yields no token
for `bearer`, and rejects any other value.  Returns the (possibly
absent) access token and the effects so far. -/
def authPhase (env : Env) (p : CredentialRequestParams) :
    Except ReqError (Option String) × Trace :=
  let auth_type := p.auth_type.getD "code"
  if auth_type = "code" then
    if env.isInRegistry p.issuer then
      let oidcConfig := env.entryFor p.issuer
      match env.authorize oidcConfig with
      | .error _ => (.error .authorizationFailed, { authorizeCalls := 1 })
      | .ok accessToken => (.ok accessToken, { authorizeCalls := 1 })
    else
      (.error (.issuerNotRegistered p.issuer), {})
  else if auth_type = "bearer" then
    (.ok none, {})
  else
    (.error (.unsupportedAuthType auth_type), {})

/-- Header assembly of `requestCredential`: `Content-Type` always, and
`Authorization: Bearer <token>` exactly when `accessToken` is truthy
(defined and non-empty). -/
def buildHeaders (accessToken : Option String) : List (String × String) :=
  let base := [("Content-Type", "application/json")]
  match accessToken with
  | some token => if token ≠ "" then base ++ [("Authorization", "Bearer " ++ token)] else base
  | none => base

/-- The post-authorization pipeline of `requestCredential`: build the
presentation from the DID record and the challenge, assemble and POST
the request, treat a non-2xx response as fatal, decode the body, run the
verifier (a `false` result only logs a warning), and extract the
credentials (`null` is fatal). -/
def submitAndProcess (env : Env) (p : CredentialRequestParams) (didRecord : DidRecord)
    (accessToken : Option String) (tr0 : Trace) :
    Except ReqError (List Credential) × Trace :=
  let requestBody := env.present didRecord p.challenge
  let tr1 := { tr0 with presentCalls := tr0.presentCalls ++ [(didRecord, p.challenge)] }
  let request : HttpRequest :=
    { method := "POST", headers := buildHeaders accessToken, body := requestBody }
  let response := env.fetch p.vc_request_url request
  let tr2 := { tr1 with submissions := tr1.submissions ++ [(p.vc_request_url, request)] }
  if response.ok then
    let tr3 := { tr2 with decodeCalls := tr2.decodeCalls + 1 }
    match env.parseResponseBody response with
    | .error _ => (.error .responseParse, tr3)
    | .ok verifiableObject =>
      let verified := env.verifyVerifiableObject verifiableObject
      let tr4 := { tr3 with verifyCalls := tr3.verifyCalls + 1,
                            warnedUnverified := !verified }
      let tr5 := { tr4 with extractCalls := tr4.extractCalls + 1 }
      match env.extractCredentialsFrom verifiableObject with
      | none => (.error .noCredentials, tr5)
      | some credentials => (.ok credentials, tr5)
  else
    (.error .issuerResponse, tr2)

/-- `requestCredential` from `credentialRequest.ts`: the auth-mode
prologue followed by the submission pipeline; any thrown error aborts
the attempt. -/
def requestCredential (env : Env) (p : CredentialRequestParams) (didRecord : DidRecord) :
    Except ReqError (List Credential) × Trace :=
  match authPhase env p with
  | (.error e, tr) => (.error e, tr)
  | (.ok accessToken, tr) => submitAndProcess env p didRecord accessToken tr

/-- The props handed to `CredentialItem` by the share screen's
`renderItem`. -/
structure CredentialItemProps where
  title : String
  subtitle : String
  selected : Bool
  checkable : Bool
deriving Repr, DecidableEq

/-- `renderItem` from `ShareHomeScreen.tsx`: the title is
`credentialSubject.hasCredential?.name ?? ''`; the subtitle is
`issuer.name` when the issuer is not a string and its `name` is defined,
and `''` otherwise; the item is selected when its index is in the
selection list. -/
def renderItem (selected : List Nat) (item : Credential) (index : Nat) :
    CredentialItemProps :=
  { title := (item.credentialSubject.hasCredential.bind (fun hc => hc.name)).getD ""
    subtitle :=
      match item.issuer with
      | .strId _ => ""
      | .ref _ none => ""
      | .ref _ (some name) => name
    selected := selected.contains index
    checkable := true }

/-- The truthiness guard `request || {}` never changes field access:
falsy values are not objects, so both they and the empty-object fallback
have no fields. -/
theorem jsField_falsyDefault (v : JsonValue) (key : String) :
    jsField (if truthy v then v else JsonValue.obj []) key = jsField v key := by
  cases v <;> first
    | rfl
    | (split <;> rfl)

/-- Reduction of `isChapiCredentialRequest` on a defined argument. -/
theorem isChapiCredentialRequest_some (v : JsonValue) :
    isChapiCredentialRequest (some v) =
      match jsField v "credentialRequestOrigin", jsField v "protocols" with
      | some _, some protocols =>
        ["OID4VCI", "OID4VP", "vcapi"].any (fun field => truthyOpt (jsField protocols field))
      | _, _ => false := by
  simp only [isChapiCredentialRequest, jsField_falsyDefault]

/-- C7: `isCredentialRequestParams` returns `true` exactly when the bag
is defined and carries both the `issuer` and the `vc_request_url` keys,
whatever their values; in particular it returns `false` whenever either
key is missing. -/
theorem isCredentialRequestParams_true_iff (params : Option ParamBag) :
    isCredentialRequestParams params = true ↔
      ∃ ps, params = some ps ∧
        (paramLookup ps "issuer").isSome = true ∧
        (paramLookup ps "vc_request_url").isSome = true := by
  cases params with
  | none => simp [isCredentialRequestParams, paramLookup]
  | some ps => simp [isCredentialRequestParams]

/-- C8: `isChapiCredentialRequest` returns `true` exactly when the
request is a defined value carrying both `credentialRequestOrigin` and
`protocols`, and at least one of the recognized protocol keys `OID4VCI`,
`OID4VP`, `vcapi` is truthy in `protocols`; with no truthy recognized
key it returns `false` even when both fields are present. -/
theorem isChapiCredentialRequest_true_iff (request : Option JsonValue) :
    isChapiCredentialRequest request = true ↔
      ∃ v, request = some v ∧
        (jsField v "credentialRequestOrigin").isSome = true ∧
        ∃ protocols, jsField v "protocols" = some protocols ∧
          ∃ key ∈ ["OID4VCI", "OID4VP", "vcapi"],
            truthyOpt (jsField protocols key) = true := by
  cases request with
  | none => simp [isChapiCredentialRequest, jsField]
  | some v =>
    rw [isChapiCredentialRequest_some]
    rcases h1 : jsField v "credentialRequestOrigin" with _ | origin <;>
      rcases h2 : jsField v "protocols" with _ | protocols <;>
        simp [h1, h2, List.any_eq_true]

/-- A concrete stand-in for `JSON.parse` used only to evaluate the
classifiers at specific inputs; the theorems about them hold for every
parse function. -/
def jsonParseStub : JsonValue → Except Unit JsonValue := fun v => .ok v

/-- C3 as stated is false: on a bag without a `request` field,
`isChapiCredentialRequestParams` does not return `false` (or any
boolean); the malformed-request error thrown by
`getChapiCredentialRequest` propagates out of it. -/
theorem isChapiCredentialRequestParams_not_total :
    isChapiCredentialRequestParams jsonParseStub [] = .error .malformedRequest ∧
    ∀ b : Bool, isChapiCredentialRequestParams jsonParseStub [] ≠ .ok b := by
  refine ⟨rfl, ?_⟩
  intro b h
  simp [isChapiCredentialRequestParams, getChapiCredentialRequest, paramLookup] at h

/-- C3 (amended): `isChapiCredentialRequestParams` returns `true` iff
reading and JSON-decoding the `request` field succeeds and the decoded
object passes `isChapiCredentialRequest`, and `false` iff decoding
succeeds but the decoded object fails `isChapiCredentialRequest`; when
the `request` field is absent or falsy, or decoding fails, it returns no
boolean at all: the error thrown by `getChapiCredentialRequest`
propagates unchanged. -/
theorem isChapiCredentialRequestParams_spec
    (jsonParse : JsonValue → Except Unit JsonValue) (params : ParamBag) :
    (isChapiCredentialRequestParams jsonParse params = .ok true ↔
      ∃ r, getChapiCredentialRequest jsonParse params = .ok r ∧
        isChapiCredentialRequest (some r) = true) ∧
    (isChapiCredentialRequestParams jsonParse params = .ok false ↔
      ∃ r, getChapiCredentialRequest jsonParse params = .ok r ∧
        isChapiCredentialRequest (some r) = false) ∧
    (∀ e, getChapiCredentialRequest jsonParse params = .error e →
      isChapiCredentialRequestParams jsonParse params = .error e) ∧
    ((paramLookup params "request" = none ∨
      (∃ v, paramLookup params "request" = some v ∧ truthy v = false)) →
      isChapiCredentialRequestParams jsonParse params = .error .malformedRequest) := by
  refine ⟨?_, ?_, ?_, ?_⟩
  · constructor
    · intro h
      rcases hg : getChapiCredentialRequest jsonParse params with e | r <;>
        simp [isChapiCredentialRequestParams, hg] at h
      exact ⟨r, rfl, h⟩
    · rintro ⟨r, hg, hr⟩
      simp [isChapiCredentialRequestParams, hg, hr]
  · constructor
    · intro h
      rcases hg : getChapiCredentialRequest jsonParse params with e | r <;>
        simp [isChapiCredentialRequestParams, hg] at h
      exact ⟨r, rfl, h⟩
    · rintro ⟨r, hg, hr⟩
      simp [isChapiCredentialRequestParams, hg, hr]
  · intro e hg
    simp [isChapiCredentialRequestParams, hg]
  · intro h
    have hg : getChapiCredentialRequest jsonParse params = .error .malformedRequest := by
      rcases h with h | ⟨v, hv, hfalsy⟩
      · simp [getChapiCredentialRequest, h]
      · simp [getChapiCredentialRequest, hv, hfalsy]
    simp [isChapiCredentialRequestParams, hg]

/-- C3 amended, evaluated: a bag whose `request` field decodes (under
the stub parser) to an object with `credentialRequestOrigin` and a
truthy `vcapi` protocol classifies as `true`. -/
theorem isChapiCredentialRequestParams_spec_witness :
    isChapiCredentialRequestParams jsonParseStub
      [("request", JsonValue.obj
        [("credentialRequestOrigin", JsonValue.str "https://rp.example"),
         ("protocols", JsonValue.obj [("vcapi", JsonValue.str "https://vc.example")])])]
      = .ok true ∧
    isChapiCredentialRequestParams jsonParseStub [("other", JsonValue.null)]
      = .error .malformedRequest := by
  constructor
  · exact ((isChapiCredentialRequestParams_spec jsonParseStub
      [("request", JsonValue.obj
        [("credentialRequestOrigin", JsonValue.str "https://rp.example"),
         ("protocols", JsonValue.obj [("vcapi", JsonValue.str "https://vc.example")])])]).1).2
      ⟨JsonValue.obj
        [("credentialRequestOrigin", JsonValue.str "https://rp.example"),
         ("protocols", JsonValue.obj [("vcapi", JsonValue.str "https://vc.example")])],
       rfl, rfl⟩
  · exact (isChapiCredentialRequestParams_spec jsonParseStub
      [("other", JsonValue.null)]).2.2.2 (Or.inl rfl)

/-- C9: the share screen's subtitle handles both issuer variants without
failure: it is `issuer.name` when the issuer is an object with a defined
name, and the empty string when the issuer is a bare string or an object
without a name. -/
theorem renderItem_subtitle (selected : List Nat) (item : Credential) (index : Nat) :
    (∀ i n, item.issuer = IssuerField.ref i (some n) →
      (renderItem selected item index).subtitle = n) ∧
    (∀ s, item.issuer = IssuerField.strId s →
      (renderItem selected item index).subtitle = "") ∧
    (∀ i, item.issuer = IssuerField.ref i none →
      (renderItem selected item index).subtitle = "") := by
  refine ⟨?_, ?_, ?_⟩ <;> intros _ <;> intros <;> simp only [renderItem, *]

/-- C9, evaluated: a credential whose issuer object names the issuer
displays that name as the subtitle. -/
theorem renderItem_subtitle_witness :
    (renderItem []
      { id := "c9", credentialSubject := { hasCredential := none },
        issuer := IssuerField.ref "did:ex:iss" (some "Example University") } 0).subtitle
      = "Example University" :=
  (renderItem_subtitle []
    { id := "c9", credentialSubject := { hasCredential := none },
      issuer := IssuerField.ref "did:ex:iss" (some "Example University") } 0).1
    "did:ex:iss" "Example University" rfl

/-- The auth-mode prologue performs no presentation build, no HTTP
submission, no decode, no verification and no extraction. -/
theorem authPhase_trace (env : Env) (p : CredentialRequestParams) :
    (authPhase env p).2.presentCalls = [] ∧
    (authPhase env p).2.submissions = [] ∧
    (authPhase env p).2.decodeCalls = 0 ∧
    (authPhase env p).2.verifyCalls = 0 ∧
    (authPhase env p).2.extractCalls = 0 := by
  simp only [authPhase]
  repeat' split
  all_goals exact ⟨rfl, rfl, rfl, rfl, rfl⟩

/-- C4: with `auth_type = "code"` and an issuer missing from the
registry, `requestCredential` fails with the issuer-not-registered error
before invoking the authorization capability, before building a
presentation and before any HTTP submission. -/
theorem requestCredential_unregistered_issuer
    (env : Env) (p : CredentialRequestParams) (didRecord : DidRecord)
    (hcode : p.auth_type = some "code")
    (hreg : env.isInRegistry p.issuer = false) :
    (requestCredential env p didRecord).1 = .error (.issuerNotRegistered p.issuer) ∧
    (requestCredential env p didRecord).2.authorizeCalls = 0 ∧
    (requestCredential env p didRecord).2.presentCalls = [] ∧
    (requestCredential env p didRecord).2.submissions = [] := by
  have hap : authPhase env p = (.error (.issuerNotRegistered p.issuer), {}) := by
    unfold authPhase
    simp [hcode, hreg]
  simp [requestCredential, hap]

/-- C5: with `auth_type = "bearer"`, `requestCredential` never invokes
the authorization capability, forwards the challenge parameter to
presentation construction, and every HTTP submission it issues carries
no `Authorization` header. -/
theorem requestCredential_bearer
    (env : Env) (p : CredentialRequestParams) (didRecord : DidRecord)
    (hbearer : p.auth_type = some "bearer") :
    (requestCredential env p didRecord).2.authorizeCalls = 0 ∧
    (requestCredential env p didRecord).2.presentCalls = [(didRecord, p.challenge)] ∧
    ∀ s ∈ (requestCredential env p didRecord).2.submissions,
      headerLookup s.2.headers "Authorization" = none := by
  have hap : authPhase env p = (.ok none, {}) := by
    unfold authPhase
    simp [hbearer]
  refine ⟨?_, ?_, ?_⟩ <;>
    simp only [requestCredential, hap] <;>
    simp only [submitAndProcess] <;>
    (repeat' split) <;>
    simp [buildHeaders, headerLookup]

/-- C1: when the flow reaches verification and the verifier returns
`false` while the extractor returns a non-null sequence,
`requestCredential` succeeds with the extracted credentials (logging
only the advisory warning); a verification failure alone never produces
a failed outcome. -/
theorem requestCredential_unverified_success
    (env : Env) (p : CredentialRequestParams) (didRecord : DidRecord)
    (accessToken : Option String) (tr : Trace)
    (hauth : authPhase env p = (.ok accessToken, tr))
    (vo : VerifiableObject) (creds : List Credential)
    (hok : (env.fetch p.vc_request_url
      { method := "POST", headers := buildHeaders accessToken,
        body := env.present didRecord p.challenge }).ok = true)
    (hparse : env.parseResponseBody (env.fetch p.vc_request_url
      { method := "POST", headers := buildHeaders accessToken,
        body := env.present didRecord p.challenge }) = .ok vo)
    (hverify : env.verifyVerifiableObject vo = false)
    (hextract : env.extractCredentialsFrom vo = some creds) :
    (requestCredential env p didRecord).1 = .ok creds ∧
    (requestCredential env p didRecord).2.warnedUnverified = true := by
  simp only [requestCredential, hauth]
  simp only [submitAndProcess, hok, hparse, hverify, hextract]
  simp

/-- C2: once the flow reaches extraction, `requestCredential` fails with
the no-credentials error exactly when the extractor returns `null`, and
returns the extracted sequence (an empty one included) whenever it is
non-null. -/
theorem requestCredential_extraction_dichotomy
    (env : Env) (p : CredentialRequestParams) (didRecord : DidRecord)
    (accessToken : Option String) (tr : Trace)
    (hauth : authPhase env p = (.ok accessToken, tr))
    (vo : VerifiableObject)
    (hok : (env.fetch p.vc_request_url
      { method := "POST", headers := buildHeaders accessToken,
        body := env.present didRecord p.challenge }).ok = true)
    (hparse : env.parseResponseBody (env.fetch p.vc_request_url
      { method := "POST", headers := buildHeaders accessToken,
        body := env.present didRecord p.challenge }) = .ok vo) :
    ((requestCredential env p didRecord).1 = .error .noCredentials ↔
      env.extractCredentialsFrom vo = none) ∧
    (∀ creds, env.extractCredentialsFrom vo = some creds →
      (requestCredential env p didRecord).1 = .ok creds) := by
  simp only [requestCredential, hauth]
  simp only [submitAndProcess, hok, hparse]
  constructor
  · rcases hx : env.extractCredentialsFrom vo with _ | creds <;> simp [hx]
  · intro creds hx
    simp [hx]

/-- C6: a non-2xx issuer response is terminal: `requestCredential` fails
with the issuer-response error after exactly one submission and without
invoking the response decoder, the verifier or the extractor. -/
theorem requestCredential_non2xx
    (env : Env) (p : CredentialRequestParams) (didRecord : DidRecord)
    (accessToken : Option String) (tr : Trace)
    (hauth : authPhase env p = (.ok accessToken, tr))
    (hfail : (env.fetch p.vc_request_url
      { method := "POST", headers := buildHeaders accessToken,
        body := env.present didRecord p.challenge }).ok = false) :
    (requestCredential env p didRecord).1 = .error .issuerResponse ∧
    (requestCredential env p didRecord).2.submissions.length = 1 ∧
    (requestCredential env p didRecord).2.decodeCalls = 0 ∧
    (requestCredential env p didRecord).2.verifyCalls = 0 ∧
    (requestCredential env p didRecord).2.extractCalls = 0 := by
  have htr := authPhase_trace env p
  rw [hauth] at htr
  simp only at htr
  simp only [requestCredential, hauth]
  simp only [submitAndProcess, hfail]
  simp [htr.2.1, htr.2.2.1, htr.2.2.2.1, htr.2.2.2.2]

/-- Once `auth_type` resolves to `"code"`, the prologue never produces
the unsupported-auth-type error. -/
theorem authPhase_code_no_unsupported (env : Env) (p : CredentialRequestParams)
    (h : p.auth_type.getD "code" = "code") (t : String) :
    (authPhase env p).1 ≠ .error (.unsupportedAuthType t) := by
  simp only [authPhase, h]
  repeat' split
  all_goals simp_all

/-- The post-authorization pipeline never produces the
unsupported-auth-type error. -/
theorem submitAndProcess_no_unsupported (env : Env) (p : CredentialRequestParams)
    (didRecord : DidRecord) (accessToken : Option String) (tr0 : Trace) (t : String) :
    (submitAndProcess env p didRecord accessToken tr0).1 ≠ .error (.unsupportedAuthType t) := by
  simp only [submitAndProcess]
  repeat' split
  all_goals simp

/-- C10: with `auth_type` absent, `requestCredential` behaves exactly as
with `auth_type = "code"`: same outcome and same effects, failing with
the issuer-not-registered error when the issuer is missing from the
registry, and never failing with the unsupported-auth-type error. -/
theorem requestCredential_defaults_to_code
    (env : Env) (p : CredentialRequestParams) (didRecord : DidRecord)
    (hnone : p.auth_type = none) :
    requestCredential env p didRecord =
      requestCredential env { p with auth_type := some "code" } didRecord ∧
    (env.isInRegistry p.issuer = false →
      (requestCredential env p didRecord).1 = .error (.issuerNotRegistered p.issuer)) ∧
    ∀ t, (requestCredential env p didRecord).1 ≠ .error (.unsupportedAuthType t) := by
  obtain ⟨a0, iss, url, ch⟩ := p
  simp only at hnone
  subst hnone
  refine ⟨rfl, ?_, ?_⟩
  · intro hreg
    have hap : authPhase env ⟨none, iss, url, ch⟩
        = (.error (.issuerNotRegistered iss), {}) := by
      simp only [authPhase]
      simp [hreg]
    simp [requestCredential, hap]
  · intro t
    rcases hap : authPhase env ⟨none, iss, url, ch⟩ with ⟨res, tr⟩
    rcases res with e | tok
    · have h1 := authPhase_code_no_unsupported env ⟨none, iss, url, ch⟩ rfl t
      rw [hap] at h1
      simp only [requestCredential, hap]
      simpa using h1
    · simp only [requestCredential, hap]
      exact submitAndProcess_no_unsupported env ⟨none, iss, url, ch⟩ didRecord tok tr t

/-- A DID record used in concrete evaluations. -/
def sampleDid : DidRecord := { did := "did:key:z6MkHolder" }

/-- Bearer-mode request parameters used in concrete evaluations. -/
def sampleBearerParams : CredentialRequestParams :=
  { auth_type := some "bearer", issuer := "univ.example",
    vc_request_url := "https://univ.example/vc", challenge := some "abc123" }

/-- Code-mode request parameters used in concrete evaluations. -/
def sampleCodeParams : CredentialRequestParams :=
  { auth_type := some "code", issuer := "univ.example",
    vc_request_url := "https://univ.example/vc", challenge := none }

/-- Request parameters with `auth_type` absent, used in concrete
evaluations. -/
def sampleDefaultParams : CredentialRequestParams :=
  { auth_type := none, issuer := "univ.example",
    vc_request_url := "https://univ.example/vc", challenge := none }

/-- A credential returned by the mock issuer in concrete evaluations. -/
def sampleCredential : Credential :=
  { id := "urn:uuid:cred-1",
    credentialSubject := { hasCredential := some { name := "Bachelor of Science" } },
    issuer := IssuerField.ref "did:ex:univ" (some "Example University") }

/-- The decoded verifiable object of the mock issuer response. -/
def sampleVO : VerifiableObject := { raw := "vp-response" }

/-- A mock environment: the issuer is registered, authorization yields a
token, submission returns HTTP 200, the body decodes, verification
reports `false`, and extraction yields one credential. -/
def envUnverified : Env :=
  { isInRegistry := fun _ => true
    entryFor := fun _ => { clientId := "client-1" }
    authorize := fun _ => .ok (some "token-1")
    present := fun _ _ => { payload := "vp-signed" }
    fetch := fun _ _ => { status := 200, body := "{}" }
    parseResponseBody := fun _ => .ok sampleVO
    verifyVerifiableObject := fun _ => false
    extractCredentialsFrom := fun _ => some [sampleCredential] }

/-- The mock environment with the issuer returning HTTP 500. -/
def envServerError : Env :=
  { envUnverified with fetch := fun _ _ => { status := 500, body := "" } }

/-- The mock environment with an empty issuer-auth registry. -/
def envUnregistered : Env :=
  { envUnverified with isInRegistry := fun _ => false }

/-- C1, evaluated: the unverifiable-but-extractable mock exchange
succeeds with the extracted credential and sets the advisory flag. -/
theorem requestCredential_unverified_success_witness :
    (requestCredential envUnverified sampleBearerParams sampleDid).1
      = .ok [sampleCredential] ∧
    (requestCredential envUnverified sampleBearerParams sampleDid).2.warnedUnverified
      = true :=
  requestCredential_unverified_success envUnverified sampleBearerParams sampleDid
    none {} rfl sampleVO [sampleCredential] rfl rfl rfl rfl

/-- C2, evaluated: the extraction dichotomy at the mock exchange whose
extractor returns one credential. -/
theorem requestCredential_extraction_dichotomy_witness :
    ((requestCredential envUnverified sampleBearerParams sampleDid).1
        = .error .noCredentials ↔
      envUnverified.extractCredentialsFrom sampleVO = none) ∧
    (∀ creds, envUnverified.extractCredentialsFrom sampleVO = some creds →
      (requestCredential envUnverified sampleBearerParams sampleDid).1 = .ok creds) :=
  requestCredential_extraction_dichotomy envUnverified sampleBearerParams sampleDid
    none {} rfl sampleVO rfl rfl

/-- C4, evaluated: a code-mode request against the empty registry fails
with the issuer-not-registered error and produces no effects. -/
theorem requestCredential_unregistered_issuer_witness :
    (requestCredential envUnregistered sampleCodeParams sampleDid).1
      = .error (.issuerNotRegistered sampleCodeParams.issuer) ∧
    (requestCredential envUnregistered sampleCodeParams sampleDid).2.authorizeCalls = 0 ∧
    (requestCredential envUnregistered sampleCodeParams sampleDid).2.presentCalls = [] ∧
    (requestCredential envUnregistered sampleCodeParams sampleDid).2.submissions = [] :=
  requestCredential_unregistered_issuer envUnregistered sampleCodeParams sampleDid rfl rfl

/-- C5, evaluated: the bearer-mode mock exchange never authorizes,
forwards the challenge, and submits without an `Authorization` header. -/
theorem requestCredential_bearer_witness :
    (requestCredential envUnverified sampleBearerParams sampleDid).2.authorizeCalls = 0 ∧
    (requestCredential envUnverified sampleBearerParams sampleDid).2.presentCalls
      = [(sampleDid, sampleBearerParams.challenge)] ∧
    ∀ s ∈ (requestCredential envUnverified sampleBearerParams sampleDid).2.submissions,
      headerLookup s.2.headers "Authorization" = none :=
  requestCredential_bearer envUnverified sampleBearerParams sampleDid rfl

/-- C6, evaluated: the HTTP-500 mock exchange fails with the
issuer-response error after one submission and no decode, verify or
extract call. -/
theorem requestCredential_non2xx_witness :
    (requestCredential envServerError sampleBearerParams sampleDid).1
      = .error .issuerResponse ∧
    (requestCredential envServerError sampleBearerParams sampleDid).2.submissions.length = 1 ∧
    (requestCredential envServerError sampleBearerParams sampleDid).2.decodeCalls = 0 ∧
    (requestCredential envServerError sampleBearerParams sampleDid).2.verifyCalls = 0 ∧
    (requestCredential envServerError sampleBearerParams sampleDid).2.extractCalls = 0 :=
  requestCredential_non2xx envServerError sampleBearerParams sampleDid none {} rfl rfl

/-- C10, evaluated: with `auth_type` absent the run coincides with the
explicit `"code"` run. -/
theorem requestCredential_defaults_to_code_witness :
    requestCredential envUnregistered sampleDefaultParams sampleDid =
      requestCredential envUnregistered
        { sampleDefaultParams with auth_type := some "code" } sampleDid :=
  (requestCredential_defaults_to_code envUnregistered sampleDefaultParams sampleDid rfl).1
